import Mathlib

/-!
# The documentation search index of MagneticEquilibria.jl

`dev/search_index.js` binds the global `documenterSearchIndex` to an object
literal.  The literal is embedded as a value of `JSValue`; property access and
the structural facts about the records are stated on that value.
-/

namespace SearchIndex

/-- The values that occur in the object literal: strings, arrays and objects.
An object is the list of its properties in the order of the literal; within
one object of the file no property name occurs twice. -/
inductive JSValue where
  | str (s : String)
  | arr (items : List JSValue)
  | obj (props : List (String × JSValue))

/-- Property lookup `v[k]`: the first property named `k` of an object, `none`
(JavaScript `undefined`) on anything else. -/
def JSValue.get : JSValue → String → Option JSValue
  | .obj props, k => (props.find? fun p => p.1 == k).map Prod.snd
  | _, _ => none

/-- The string stored under property `k`, `none` when the property is absent
or holds something that is not a string. -/
def JSValue.getStr (v : JSValue) (k : String) : Option String :=
  match v.get k with
  | some (.str s) => some s
  | _ => none

/-- The elements of an array-valued property `k`; empty otherwise. -/
def JSValue.getArr (v : JSValue) (k : String) : List JSValue :=
  match v.get k with
  | some (.arr items) => items
  | _ => []

/-- The object literal that `dev/search_index.js` binds to
`documenterSearchIndex`, property by property and record by record.  Inside
the strings `\x7b` and `\x7d` stand for the two braces and `\x27` for the
apostrophe. -/
def documenterSearchIndex : JSValue :=
  JSValue.obj [("docs", JSValue.arr [
    JSValue.obj [("location", JSValue.str "analytic/#Analytic-Fields"), ("page", JSValue.str "Analytic Fields"), ("title", JSValue.str "Analytic Fields"), ("text", JSValue.str ""), ("category", JSValue.str "section")],
    JSValue.obj [("location", JSValue.str "analytic/#Arnold-Beltrami-Childress-(ABC)-Field"), ("page", JSValue.str "Analytic Fields"), ("title", JSValue.str "Arnold-Beltrami-Childress (ABC) Field"), ("text", JSValue.str ""), ("category", JSValue.str "section")],
    JSValue.obj [("location", JSValue.str "analytic/"), ("page", JSValue.str "Analytic Fields"), ("title", JSValue.str "Analytic Fields"), ("text", JSValue.str "ABC"), ("category", JSValue.str "page")],
    JSValue.obj [("location", JSValue.str "analytic/#ElectromagneticFields.ABC"), ("page", JSValue.str "Analytic Fields"), ("title", JSValue.str "ElectromagneticFields.ABC"), ("text", JSValue.str "Arnold-Beltrami-Childress (ABC) field in (x,y,z) coordinates with covariant components of the vector potential given by\n\nA (xyz) = big( a  sin(z) + c  cos(y)   b  sin(x) + a  cos(z)   c  sin(y) + b  cos(x) big)^T\n\nresulting in the magnetic field B(xyz) = A(xyz).\n\nParameters: a, b, c\n\n\n\n\n\n"), ("category", JSValue.str "module")],
    JSValue.obj [("location", JSValue.str "analytic/"), ("page", JSValue.str "Analytic Fields"), ("title", JSValue.str "Analytic Fields"), ("text", JSValue.str "using Plots\nusing ElectromagneticFields\n\neq_abc = ElectromagneticFields.ABC.init()\nplot(eq_abc)\nsavefig(\"abc.png\")\n\nnothing"), ("category", JSValue.str "page")],
    JSValue.obj [("location", JSValue.str "analytic/"), ("page", JSValue.str "Analytic Fields"), ("title", JSValue.str "Analytic Fields"), ("text", JSValue.str "Absolut value of the magnetic field:"), ("category", JSValue.str "page")],
    JSValue.obj [("location", JSValue.str "analytic/"), ("page", JSValue.str "Analytic Fields"), ("title", JSValue.str "Analytic Fields"), ("text", JSValue.str "(Image: )"), ("category", JSValue.str "page")],
    JSValue.obj [("location", JSValue.str "analytic/#Axisymmetric-Tokamak-Equilibrium-in-Cartesian-Coordinates"), ("page", JSValue.str "Analytic Fields"), ("title", JSValue.str "Axisymmetric Tokamak Equilibrium in Cartesian Coordinates"), ("text", JSValue.str ""), ("category", JSValue.str "section")],
    JSValue.obj [("location", JSValue.str "analytic/"), ("page", JSValue.str "Analytic Fields"), ("title", JSValue.str "Analytic Fields"), ("text", JSValue.str "AxisymmetricTokamakCartesian"), ("category", JSValue.str "page")],
    JSValue.obj [("location", JSValue.str "analytic/#ElectromagneticFields.AxisymmetricTokamakCartesian"), ("page", JSValue.str "Analytic Fields"), ("title", JSValue.str "ElectromagneticFields.AxisymmetricTokamakCartesian"), ("text", JSValue.str "Axisymmetric tokamak equilibrium in (x,y,z) coordinates with covariant components of the vector potential given by\n\nA (xyz) = frac12 fracB_0q_0  bigg( fracq_0 R_0 x z - r^2 yR^2   fracq_0 R_0 y z + r^2 xR^2   - q_0 R_0  ln bigg( fracRR_0 bigg) bigg)^T \n\nresulting in the magnetic field with covariant components\n\nB (xyz) = fracB_0q_0  bigg( - fracq_0 R_0 y + x zR^2   fracq_0 R_0 x - y zR^2   fracR - R_0R bigg)^T \n\nwhere R = sqrt x^2 + y^2  and r = sqrt (R - R_0)^2 + z^2 .\n\nParameters:\n\nR₀: position of magnetic axis\nB₀: B-field at magnetic axis\nq₀: safety factor at magnetic axis\n\n\n\n\n\n"), ("category", JSValue.str "module")],
    JSValue.obj [("location", JSValue.str "analytic/"), ("page", JSValue.str "Analytic Fields"), ("title", JSValue.str "Analytic Fields"), ("text", JSValue.str "using Plots\nusing ElectromagneticFields\n\neq_car = ElectromagneticFields.AxisymmetricTokamakCartesian.init()\nplot(eq_car)\nsavefig(\"axisymmetric_tokamak_cartesian.png\")\n\nnothing"), ("category", JSValue.str "page")],
    JSValue.obj [("location", JSValue.str "analytic/"), ("page", JSValue.str "Analytic Fields"), ("title", JSValue.str "Analytic Fields"), ("text", JSValue.str "Vector potential in y direction:"), ("category", JSValue.str "page")],
    JSValue.obj [("location", JSValue.str "analytic/"), ("page", JSValue.str "Analytic Fields"), ("title", JSValue.str "Analytic Fields"), ("text", JSValue.str "(Image: )"), ("category", JSValue.str "page")],
    JSValue.obj [("location", JSValue.str "analytic/#Axisymmetric-Tokamak-Equilibrium-in-Cylindrical-Coordinates"), ("page", JSValue.str "Analytic Fields"), ("title", JSValue.str "Axisymmetric Tokamak Equilibrium in Cylindrical Coordinates"), ("text", JSValue.str ""), ("category", JSValue.str "section")],
    JSValue.obj [("location", JSValue.str "analytic/"), ("page", JSValue.str "Analytic Fields"), ("title", JSValue.str "Analytic Fields"), ("text", JSValue.str "AxisymmetricTokamakCylindrical"), ("category", JSValue.str "page")],
    JSValue.obj [("location", JSValue.str "analytic/#ElectromagneticFields.AxisymmetricTokamakCylindrical"), ("page", JSValue.str "Analytic Fields"), ("title", JSValue.str "ElectromagneticFields.AxisymmetricTokamakCylindrical"), ("text", JSValue.str "Axisymmetric tokamak equilibrium in (R,Z,ϕ) coordinates with covariant components of the vector potential given by\n\nA (R Z phi) = fracB_02  bigg( R_0  fracZR   - R_0  ln bigg( fracRR_0 bigg)   - fracr^2q_0 bigg)^T \n\nresulting in the magnetic field with covariant components\n\nB (R Z phi) = fracB_0q_0  bigg( - fracZR   fracR - R_0R   - q_0 R_0 bigg)^T \n\nwhere r = sqrt (R - R_0)^2 + Z^2 .\n\nParameters:\n\nR₀: position of magnetic axis\nB₀: B-field at magnetic axis\nq₀: safety factor at magnetic axis\n\n\n\n\n\n"), ("category", JSValue.str "module")],
    JSValue.obj [("location", JSValue.str "analytic/"), ("page", JSValue.str "Analytic Fields"), ("title", JSValue.str "Analytic Fields"), ("text", JSValue.str "using Plots\nusing ElectromagneticFields\n\neq_cyl = ElectromagneticFields.AxisymmetricTokamakCylindrical.init()\nplot(eq_cyl)\nsavefig(\"axisymmetric_tokamak_cylindrical.png\")\n\nnothing"), ("category", JSValue.str "page")],
    JSValue.obj [("location", JSValue.str "analytic/"), ("page", JSValue.str "Analytic Fields"), ("title", JSValue.str "Analytic Fields"), ("text", JSValue.str "Vector potential in y direction:"), ("category", JSValue.str "page")],
    JSValue.obj [("location", JSValue.str "analytic/"), ("page", JSValue.str "Analytic Fields"), ("title", JSValue.str "Analytic Fields"), ("text", JSValue.str "(Image: )"), ("category", JSValue.str "page")],
    JSValue.obj [("location", JSValue.str "analytic/#Axisymmetric-Tokamak-Equilibrium-in-Toroidal-Coordinates"), ("page", JSValue.str "Analytic Fields"), ("title", JSValue.str "Axisymmetric Tokamak Equilibrium in Toroidal Coordinates"), ("text", JSValue.str ""), ("category", JSValue.str "section")],
    JSValue.obj [("location", JSValue.str "analytic/"), ("page", JSValue.str "Analytic Fields"), ("title", JSValue.str "Analytic Fields"), ("text", JSValue.str "AxisymmetricTokamakToroidal"), ("category", JSValue.str "page")],
    JSValue.obj [("location", JSValue.str "analytic/#ElectromagneticFields.AxisymmetricTokamakToroidal"), ("page", JSValue.str "Analytic Fields"), ("title", JSValue.str "ElectromagneticFields.AxisymmetricTokamakToroidal"), ("text", JSValue.str "Axisymmetric tokamak equilibrium in (r,θ,ϕ) coordinates with covariant components of the vector potential given by\n\nA (r theta phi) = B_0  bigg( 0   fracr R_0cos (theta) - bigg( fracR_0cos (theta) bigg)^2  ln bigg( fracRR_0 bigg)   - fracr^22 q_0 bigg)^T \n\nresulting in the magnetic field with covariant components\n\nB (r theta phi) = fracB_0q_0  bigg( 0   fracr^2R  q_0 R_0 bigg)^T \n\nwhere R = R_0 + r cos theta.\n\nParameters:\n\nR₀: position of magnetic axis\nB₀: B-field at magnetic axis\nq₀: safety factor at magnetic axis\n\n\n\n\n\n"), ("category", JSValue.str "module")],
    JSValue.obj [("location", JSValue.str "analytic/"), ("page", JSValue.str "Analytic Fields"), ("title", JSValue.str "Analytic Fields"), ("text", JSValue.str "using Plots\nusing ElectromagneticFields\n\neq_cir = ElectromagneticFields.AxisymmetricTokamakToroidal.init()\nplot(eq_cir)\nsavefig(\"axisymmetric_tokamak_toroidal.png\")\n\nnothing"), ("category", JSValue.str "page")],
    JSValue.obj [("location", JSValue.str "analytic/"), ("page", JSValue.str "Analytic Fields"), ("title", JSValue.str "Analytic Fields"), ("text", JSValue.str "Vector potential in y direction:"), ("category", JSValue.str "page")],
    JSValue.obj [("location", JSValue.str "analytic/"), ("page", JSValue.str "Analytic Fields"), ("title", JSValue.str "Analytic Fields"), ("text", JSValue.str "(Image: )"), ("category", JSValue.str "page")],
    JSValue.obj [("location", JSValue.str "analytic/#Singular-Magnetic-Field"), ("page", JSValue.str "Analytic Fields"), ("title", JSValue.str "Singular Magnetic Field"), ("text", JSValue.str ""), ("category", JSValue.str "section")],
    JSValue.obj [("location", JSValue.str "analytic/"), ("page", JSValue.str "Analytic Fields"), ("title", JSValue.str "Analytic Fields"), ("text", JSValue.str "Singular"), ("category", JSValue.str "page")],
    JSValue.obj [("location", JSValue.str "analytic/#ElectromagneticFields.Singular"), ("page", JSValue.str "Analytic Fields"), ("title", JSValue.str "ElectromagneticFields.Singular"), ("text", JSValue.str "Singular magnetic field in (x,y,z) coordinates with covariant components of the vector potential given by\n\nA (xyz) = fracB_0sqrt(x^2 + y^2)^3 big( y   - x   0 big)^T\n\nresulting in the magnetic field with covariant components\n\nB(xyz) = B_0  beginpmatrix\n0 \n0 \n(x^2 + y^2)^-32 \nendpmatrix\n\nParameters: B₀\n\n\n\n\n\n"), ("category", JSValue.str "module")],
    JSValue.obj [("location", JSValue.str "analytic/"), ("page", JSValue.str "Analytic Fields"), ("title", JSValue.str "Analytic Fields"), ("text", JSValue.str "using Plots\nusing ElectromagneticFields\n\neq_sng = ElectromagneticFields.Singular.init()\nplot(eq_sng)\nsavefig(\"singular.png\")\n\nnothing"), ("category", JSValue.str "page")],
    JSValue.obj [("location", JSValue.str "analytic/"), ("page", JSValue.str "Analytic Fields"), ("title", JSValue.str "Analytic Fields"), ("text", JSValue.str "Vector potential and magnetic field components:"), ("category", JSValue.str "page")],
    JSValue.obj [("location", JSValue.str "analytic/"), ("page", JSValue.str "Analytic Fields"), ("title", JSValue.str "Analytic Fields"), ("text", JSValue.str "(Image: )"), ("category", JSValue.str "page")],
    JSValue.obj [("location", JSValue.str "analytic/#Symmetric-Magnetic-Field"), ("page", JSValue.str "Analytic Fields"), ("title", JSValue.str "Symmetric Magnetic Field"), ("text", JSValue.str ""), ("category", JSValue.str "section")],
    JSValue.obj [("location", JSValue.str "analytic/"), ("page", JSValue.str "Analytic Fields"), ("title", JSValue.str "Analytic Fields"), ("text", JSValue.str "SymmetricQuadratic"), ("category", JSValue.str "page")],
    JSValue.obj [("location", JSValue.str "analytic/#ElectromagneticFields.SymmetricQuadratic"), ("page", JSValue.str "Analytic Fields"), ("title", JSValue.str "ElectromagneticFields.SymmetricQuadratic"), ("text", JSValue.str "Symmetric quadratic mangetic field in (x,y,z) coordinates with covariant components of the vector potential given by\n\nA (xyz) = fracB_04 big( - y  (2 + x^2 + y^2)   x  (2 + x^2 + y^2)   0 big)^T\n\nresulting in the magnetic field with covariant components\n\nB(xyz) = B_0  beginpmatrix\n0 \n0 \n1 + x^2 + y^2 \nendpmatrix\n\nParameters: B₀\n\n\n\n\n\n"), ("category", JSValue.str "module")],
    JSValue.obj [("location", JSValue.str "analytic/"), ("page", JSValue.str "Analytic Fields"), ("title", JSValue.str "Analytic Fields"), ("text", JSValue.str "using Plots\nusing ElectromagneticFields\n\neq_sym = ElectromagneticFields.SymmetricQuadratic.init()\nplot(eq_sym)\nsavefig(\"symmetric.png\")\n\nnothing"), ("category", JSValue.str "page")],
    JSValue.obj [("location", JSValue.str "analytic/"), ("page", JSValue.str "Analytic Fields"), ("title", JSValue.str "Analytic Fields"), ("text", JSValue.str "Vector potential and magnetic field components:"), ("category", JSValue.str "page")],
    JSValue.obj [("location", JSValue.str "analytic/"), ("page", JSValue.str "Analytic Fields"), ("title", JSValue.str "Analytic Fields"), ("text", JSValue.str "(Image: )"), ("category", JSValue.str "page")],
    JSValue.obj [("location", JSValue.str "analytic/#Symmetric-Solov\x27ev-Equilibrium"), ("page", JSValue.str "Analytic Fields"), ("title", JSValue.str "Symmetric Solov\x27ev Equilibrium"), ("text", JSValue.str ""), ("category", JSValue.str "section")],
    JSValue.obj [("location", JSValue.str "analytic/"), ("page", JSValue.str "Analytic Fields"), ("title", JSValue.str "Analytic Fields"), ("text", JSValue.str "SolovevSymmetric"), ("category", JSValue.str "page")],
    JSValue.obj [("location", JSValue.str "analytic/#ElectromagneticFields.SolovevSymmetric"), ("page", JSValue.str "Analytic Fields"), ("title", JSValue.str "ElectromagneticFields.SolovevSymmetric"), ("text", JSValue.str "Symmetric Solov\x27ev equilibrium in (R,Z,phi) coordinates. Based on McCarthy, Physics of Plasmas 6, 3554, 1999.\n\nParameters:\n\nR₀: position of magnetic axis\nB₀: B-field at magnetic axis\na₀, b₀: free constants\n\n\n\n\n\n"), ("category", JSValue.str "module")],
    JSValue.obj [("location", JSValue.str "analytic/"), ("page", JSValue.str "Analytic Fields"), ("title", JSValue.str "Analytic Fields"), ("text", JSValue.str "using Plots\nusing ElectromagneticFields\n\neq_sol = ElectromagneticFields.SolovevSymmetric.init()\nplot(eq_sol)\nsavefig(\"solovev_symmetric.png\")\n\nnothing"), ("category", JSValue.str "page")],
    JSValue.obj [("location", JSValue.str "analytic/"), ("page", JSValue.str "Analytic Fields"), ("title", JSValue.str "Analytic Fields"), ("text", JSValue.str "Vector potential in z direction:"), ("category", JSValue.str "page")],
    JSValue.obj [("location", JSValue.str "analytic/"), ("page", JSValue.str "Analytic Fields"), ("title", JSValue.str "Analytic Fields"), ("text", JSValue.str "(Image: )"), ("category", JSValue.str "page")],
    JSValue.obj [("location", JSValue.str "analytic/#Solov\x27ev-Equilibrium"), ("page", JSValue.str "Analytic Fields"), ("title", JSValue.str "Solov\x27ev Equilibrium"), ("text", JSValue.str ""), ("category", JSValue.str "section")],
    JSValue.obj [("location", JSValue.str "analytic/"), ("page", JSValue.str "Analytic Fields"), ("title", JSValue.str "Analytic Fields"), ("text", JSValue.str "Solovev"), ("category", JSValue.str "page")],
    JSValue.obj [("location", JSValue.str "analytic/#ElectromagneticFields.Solovev"), ("page", JSValue.str "Analytic Fields"), ("title", JSValue.str "ElectromagneticFields.Solovev"), ("text", JSValue.str "Axisymmetric Solov\x27ev equilibra in (R/R₀,Z/R₀,phi) coordinates. Based on Cerfon & Freidberg, Physics of Plasmas 17, 032502, 2010.\n\nParameters:\n\nR₀: position of magnetic axis\nB₀: B-field at magnetic axis\nϵ:  inverse aspect ratio\nκ:  elongation\nδ:  triangularity\na:  free constant, determined to match a given beta value\n\n\n\n\n\n"), ("category", JSValue.str "module")],
    JSValue.obj [("location", JSValue.str "analytic/"), ("page", JSValue.str "Analytic Fields"), ("title", JSValue.str "Analytic Fields"), ("text", JSValue.str "using Plots\nusing ElectromagneticFields\n\neq_sol_iter = ElectromagneticFields.Solovev.ITER()\nplot_iter = plot(eq_sol_iter, title=\"ITER\", xlims=(0.6,1.4))\n\neq_sol_nstx = ElectromagneticFields.Solovev.NSTX()\nplot_nstx = plot(eq_sol_nstx, title=\"NSTX\", xlims=(0.05, 2.3), ylims=(-2.25, +2.25), levels=50)\n\neq_sol_frc = ElectromagneticFields.Solovev.FRC()\nplot_frc = plot(eq_sol_frc, title=\"FRC\", xlims=(0,2), ylims=(-10,+10), levels=25, aspect_ratio=1//5)\n\nplot(size=(800,400), layout=(1,3), plot_iter, plot_nstx, plot_frc)\nsavefig(\"solovev.png\")\n\nnothing"), ("category", JSValue.str "page")],
    JSValue.obj [("location", JSValue.str "analytic/"), ("page", JSValue.str "Analytic Fields"), ("title", JSValue.str "Analytic Fields"), ("text", JSValue.str "Vector potential in ITER, NSTX and a field reversed configuration:"), ("category", JSValue.str "page")],
    JSValue.obj [("location", JSValue.str "analytic/"), ("page", JSValue.str "Analytic Fields"), ("title", JSValue.str "Analytic Fields"), ("text", JSValue.str "(Image: )"), ("category", JSValue.str "page")],
    JSValue.obj [("location", JSValue.str "analytic/#Solov\x27ev-Equilibrium-with-X-Point"), ("page", JSValue.str "Analytic Fields"), ("title", JSValue.str "Solov\x27ev Equilibrium with X-Point"), ("text", JSValue.str ""), ("category", JSValue.str "section")],
    JSValue.obj [("location", JSValue.str "analytic/"), ("page", JSValue.str "Analytic Fields"), ("title", JSValue.str "Analytic Fields"), ("text", JSValue.str "SolovevXpoint"), ("category", JSValue.str "page")],
    JSValue.obj [("location", JSValue.str "analytic/#ElectromagneticFields.SolovevXpoint"), ("page", JSValue.str "Analytic Fields"), ("title", JSValue.str "ElectromagneticFields.SolovevXpoint"), ("text", JSValue.str "Axisymmetric Solov\x27ev equilibra with X-point in (R/R₀,Z/R₀,phi) coordinates. Based on Cerfon & Freidberg, Physics of Plasmas 17, 032502, 2010.\n\nParameters:\n\nR₀: position of magnetic axis\nB₀: B-field at magnetic axis\nϵ:  inverse aspect ratio\nκ:  elongation\nδ:  triangularity\na:  free constant, determined to match a given beta value\nxsep: x position of the X point\nysep: y position of the X point\n\n\n\n\n\n"), ("category", JSValue.str "module")],
    JSValue.obj [("location", JSValue.str "analytic/"), ("page", JSValue.str "Analytic Fields"), ("title", JSValue.str "Analytic Fields"), ("text", JSValue.str "using Plots\nusing ElectromagneticFields\n\neq_sol_iter = ElectromagneticFields.SolovevXpoint.ITER()\nplot_iter = plot(eq_sol_iter, title=\"ITER\", xlims=(0.6,1.4))\n\neq_sol_nstx = ElectromagneticFields.SolovevXpoint.NSTX()\nplot_nstx = plot(eq_sol_nstx, title=\"NSTX\", xlims=(0.05, 2.3), ylims=(-2.25, +2.25), levels=50)\n\nplot(size=(600,400), plot_iter, plot_nstx)\nsavefig(\"solovev_xpoint.png\")\n\nnothing"), ("category", JSValue.str "page")],
    JSValue.obj [("location", JSValue.str "analytic/"), ("page", JSValue.str "Analytic Fields"), ("title", JSValue.str "Analytic Fields"), ("text", JSValue.str "Vector potential in ITER and NSTX:"), ("category", JSValue.str "page")],
    JSValue.obj [("location", JSValue.str "analytic/"), ("page", JSValue.str "Analytic Fields"), ("title", JSValue.str "Analytic Fields"), ("text", JSValue.str "(Image: )"), ("category", JSValue.str "page")],
    JSValue.obj [("location", JSValue.str "analytic/#Theta-Pinch"), ("page", JSValue.str "Analytic Fields"), ("title", JSValue.str "Theta Pinch"), ("text", JSValue.str ""), ("category", JSValue.str "section")],
    JSValue.obj [("location", JSValue.str "analytic/"), ("page", JSValue.str "Analytic Fields"), ("title", JSValue.str "Analytic Fields"), ("text", JSValue.str "ThetaPinch"), ("category", JSValue.str "page")],
    JSValue.obj [("location", JSValue.str "analytic/#ElectromagneticFields.ThetaPinch"), ("page", JSValue.str "Analytic Fields"), ("title", JSValue.str "ElectromagneticFields.ThetaPinch"), ("text", JSValue.str "θ-pinch equilibrium in (x,y,z) coordinates with covariant components of the vector potential given by\n\nA (xyz) = fracB_02 big( - y   x   0 big)^T\n\nresulting in the magnetic field with covariant components\n\nB (xyz) = big( 0   0   B_0 big)^T \n\nParameters:     B₀: B-field at magnetic axis\n\n\n\n\n\n"), ("category", JSValue.str "module")],
    JSValue.obj [("location", JSValue.str "analytic/"), ("page", JSValue.str "Analytic Fields"), ("title", JSValue.str "Analytic Fields"), ("text", JSValue.str "using Plots\nusing ElectromagneticFields\n\neq_thp = ElectromagneticFields.ThetaPinch.init()\nplot(eq_thp)\nsavefig(\"theta_pinch.png\")\n\nnothing"), ("category", JSValue.str "page")],
    JSValue.obj [("location", JSValue.str "analytic/"), ("page", JSValue.str "Analytic Fields"), ("title", JSValue.str "Analytic Fields"), ("text", JSValue.str "Vector potential components:"), ("category", JSValue.str "page")],
    JSValue.obj [("location", JSValue.str "analytic/"), ("page", JSValue.str "Analytic Fields"), ("title", JSValue.str "Analytic Fields"), ("text", JSValue.str "(Image: )"), ("category", JSValue.str "page")],
    JSValue.obj [("location", JSValue.str "#ElectromagneticFields.jl"), ("page", JSValue.str "Home"), ("title", JSValue.str "ElectromagneticFields.jl"), ("text", JSValue.str ""), ("category", JSValue.str "section")],
    JSValue.obj [("location", JSValue.str ""), ("page", JSValue.str "Home"), ("title", JSValue.str "Home"), ("text", JSValue.str "Common Interface for Electromagnetic Fields"), ("category", JSValue.str "page")],
    JSValue.obj [("location", JSValue.str "#References"), ("page", JSValue.str "Home"), ("title", JSValue.str "References"), ("text", JSValue.str ""), ("category", JSValue.str "section")],
    JSValue.obj [("location", JSValue.str ""), ("page", JSValue.str "Home"), ("title", JSValue.str "Home"), ("text", JSValue.str "Antoine J. Cerfon, Jeffrey P. Freidberg. \"One size fits all\" analytic solutions to the Grad–Shafranov equation. Physics of Plasmas 17 (3), 032502."), ("category", JSValue.str "page")],
    JSValue.obj [("location", JSValue.str "#License"), ("page", JSValue.str "Home"), ("title", JSValue.str "License"), ("text", JSValue.str ""), ("category", JSValue.str "section")],
    JSValue.obj [("location", JSValue.str ""), ("page", JSValue.str "Home"), ("title", JSValue.str "Home"), ("text", JSValue.str "Copyright (c) Michael Kraus <michael.kraus@ipp.mpg.de>Permission is hereby granted, free of charge, to any person obtaining a copy of this software and associated documentation files (the \"Software\"), to deal in the Software without restriction, including without limitation the rights to use, copy, modify, merge, publish, distribute, sublicense, and/or sell copies of the Software, and to permit persons to whom the Software is furnished to do so, subject to the following conditions:The above copyright notice and this permission notice shall be included in all copies or substantial portions of the Software.THE SOFTWARE IS PROVIDED \"AS IS\", WITHOUT WARRANTY OF ANY KIND, EXPRESS OR IMPLIED, INCLUDING BUT NOT LIMITED TO THE WARRANTIES OF MERCHANTABILITY, FITNESS FOR A PARTICULAR PURPOSE AND NONINFRINGEMENT. IN NO EVENT SHALL THE AUTHORS OR COPYRIGHT HOLDERS BE LIABLE FOR ANY CLAIM, DAMAGES OR OTHER LIABILITY, WHETHER IN AN ACTION OF CONTRACT, TORT OR OTHERWISE, ARISING FROM, OUT OF OR IN CONNECTION WITH THE SOFTWARE OR THE USE OR OTHER DEALINGS IN THE SOFTWARE."), ("category", JSValue.str "page")],
    JSValue.obj [("location", JSValue.str "modules/#ElectromagneticFields.jl-–-Modules"), ("page", JSValue.str "Modules"), ("title", JSValue.str "ElectromagneticFields.jl – Modules"), ("text", JSValue.str ""), ("category", JSValue.str "section")],
    JSValue.obj [("location", JSValue.str "modules/"), ("page", JSValue.str "Modules"), ("title", JSValue.str "Modules"), ("text", JSValue.str "Modules = [ElectromagneticFields]\nOrder   = [:constant, :type, :macro, :function]"), ("category", JSValue.str "page")],
    JSValue.obj [("location", JSValue.str "modules/#ElectromagneticFields.connection-NTuple\x7b6,Any\x7d"), ("page", JSValue.str "Modules"), ("title", JSValue.str "ElectromagneticFields.connection"), ("text", JSValue.str "Returns the l-th component of the Levi-Civita connection\n\n\n\n\n\n"), ("category", JSValue.str "method")],
    JSValue.obj [("location", JSValue.str "modules/#ElectromagneticFields.crossproduct-NTuple\x7b5,Any\x7d"), ("page", JSValue.str "Modules"), ("title", JSValue.str "ElectromagneticFields.crossproduct"), ("text", JSValue.str "Returns the m-th component of the cross-product between the vectors v and w\n\n\n\n\n\n"), ("category", JSValue.str "method")],
    JSValue.obj [("location", JSValue.str "modules/#ElectromagneticFields.generate_equilibrium_code"), ("page", JSValue.str "Modules"), ("title", JSValue.str "ElectromagneticFields.generate_equilibrium_code"), ("text", JSValue.str "Generate code for evaluating analytic equilibria.\n\n\n\n\n\n"), ("category", JSValue.str "function")],
    JSValue.obj [("location", JSValue.str "modules/#ElectromagneticFields.generate_equilibrium_functions-Tuple\x7bAnalyticEquilibrium,AnalyticPerturbation\x7d"), ("page", JSValue.str "Modules"), ("title", JSValue.str "ElectromagneticFields.generate_equilibrium_functions"), ("text", JSValue.str "Generate functions for evaluating analytic equilibria.\n\n\n\n\n\n"), ("category", JSValue.str "method")],
    JSValue.obj [("location", JSValue.str "modules/#ElectromagneticFields.get_oneform_component-Tuple\x7bAny,Any,Any\x7d"), ("page", JSValue.str "Modules"), ("title", JSValue.str "ElectromagneticFields.get_oneform_component"), ("text", JSValue.str "Returns the i-th component of the one-form corresponding to the vector v\n\n\n\n\n\n"), ("category", JSValue.str "method")],
    JSValue.obj [("location", JSValue.str "modules/#ElectromagneticFields.get_vector_component-Tuple\x7bAny,Any,Any\x7d"), ("page", JSValue.str "Modules"), ("title", JSValue.str "ElectromagneticFields.get_vector_component"), ("text", JSValue.str "Returns the i-th component of the vector corresponding to the one-form α\n\n\n\n\n\n"), ("category", JSValue.str "method")],
    JSValue.obj [("location", JSValue.str "modules/#ElectromagneticFields.hodge²¹-NTuple\x7b4,Any\x7d"), ("page", JSValue.str "Modules"), ("title", JSValue.str "ElectromagneticFields.hodge²¹"), ("text", JSValue.str "Returns the m-th component of the one-form corresponding to the two-form β\n\n\n\n\n\n"), ("category", JSValue.str "method")],
    JSValue.obj [("location", JSValue.str "modules/#ElectromagneticFields.load_equilibrium"), ("page", JSValue.str "Modules"), ("title", JSValue.str "ElectromagneticFields.load_equilibrium"), ("text", JSValue.str "Evaluate functions for evaluating analytic equilibria.\n\n\n\n\n\n"), ("category", JSValue.str "function")],
    JSValue.obj [("location", JSValue.str "modules/#ElectromagneticFields.magnitude-Tuple\x7bAny,Any\x7d"), ("page", JSValue.str "Modules"), ("title", JSValue.str "ElectromagneticFields.magnitude"), ("text", JSValue.str "Returns the length of the vector v\n\n\n\n\n\n"), ("category", JSValue.str "method")],
    JSValue.obj [("location", JSValue.str "modules/#ElectromagneticFields.normalize-Tuple\x7bAny,Any\x7d"), ("page", JSValue.str "Modules"), ("title", JSValue.str "ElectromagneticFields.normalize"), ("text", JSValue.str "Normalises the vector v in the metric g\n\n\n\n\n\n"), ("category", JSValue.str "method")],
    JSValue.obj [("location", JSValue.str "modules/#ElectromagneticFields.Γ-NTuple\x7b6,Any\x7d"), ("page", JSValue.str "Modules"), ("title", JSValue.str "ElectromagneticFields.Γ"), ("text", JSValue.str "Returns the Christoffel symbol Γⱼₖˡ\n\n\n\n\n\n"), ("category", JSValue.str "method")]])]

/-- The sequence `documenterSearchIndex.docs`. -/
def docs : List JSValue := documenterSearchIndex.getArr "docs"

/-- The five property names of a record, in the order the literal writes them. -/
def recordFields : List String := ["location", "page", "title", "text", "category"]

/-- The eight category tags the data model lists. -/
def categoryTags : List String :=
  ["page", "section", "module", "method", "function", "constant", "type", "macro"]

/-- Whether a value is an object with exactly the five record properties, each
holding a string. -/
def JSValue.isRecord : JSValue → Bool
  | .obj [(k₁, .str _), (k₂, .str _), (k₃, .str _), (k₄, .str _), (k₅, .str _)] =>
      [k₁, k₂, k₃, k₄, k₅] == recordFields
  | _ => false

/-- The part of a location before its first `#`; the whole location when it
has none. -/
def pathPrefix (location : String) : String :=
  String.mk (location.data.takeWhile fun c => c != '#')

/-- The page title carried by the record at position `i` of a three-block
layout with blocks of 61, 6 and 13 records. -/
def blockPage (i : Nat) : String :=
  if i < 61 then "Analytic Fields" else if i < 67 then "Home" else "Modules"

/-- The string under property `k` of the record at position `i` of `docs`;
`none` when there is no such position or no such string property. -/
def fieldAt (i : Nat) (k : String) : Option String :=
  docs[i]?.bind fun r => r.getStr k

/-- The sample record of the interface description. -/
def sampleRecord : JSValue :=
  JSValue.obj [("location", JSValue.str "analytic/#Analytic-Fields"),
    ("page", JSValue.str "Analytic Fields"), ("title", JSValue.str "Analytic Fields"),
    ("text", JSValue.str ""), ("category", JSValue.str "section")]

/-- The text of the sample record, as the file writes it. -/
def sampleRecordText : String :=
  "\x7b\"location\":\"analytic/#Analytic-Fields\",\"page\":\"Analytic Fields\",\"title\":\"Analytic Fields\",\"text\":\"\",\"category\":\"section\"\x7d"

/-- The record of the License section of the Home page. -/
def licenseRecord : JSValue :=
  JSValue.obj [("location", JSValue.str "#License"), ("page", JSValue.str "Home"),
    ("title", JSValue.str "License"), ("text", JSValue.str ""),
    ("category", JSValue.str "section")]

/-! ## JSON text

The file holds the index as JSON in a source assignment.  No serializer or
parser is part of the repository; the two below follow the JSON grammar for
the values that occur (strings, arrays, objects). -/

/-- Modelled from the spec: the lower-case hexadecimal digit of a number below
16, as the serializer writes it in a `\u00XX` escape (the serializer is not
part of the repository). -/
def hexDigit (n : Nat) : Char :=
  if n < 10 then Char.ofNat (48 + n) else Char.ofNat (87 + n)

/-- Modelled from the spec: the value of a hexadecimal digit, in either case,
as the parser reads it (the parser is not part of the repository). -/
def hexVal (c : Char) : Option Nat :=
  if 48 ≤ c.toNat ∧ c.toNat ≤ 57 then some (c.toNat - 48)
  else if 97 ≤ c.toNat ∧ c.toNat ≤ 102 then some (c.toNat - 87)
  else if 65 ≤ c.toNat ∧ c.toNat ≤ 70 then some (c.toNat - 55)
  else none

/-- Modelled from the spec: the text of one character inside a JSON string
literal.  The quote, the backslash and the control characters are escaped,
every other character, non-ASCII included, is written as it is. -/
def escapeChar (c : Char) : List Char :=
  if c = '"' then ['\\', '"']
  else if c = '\\' then ['\\', '\\']
  else if c = '\n' then ['\\', 'n']
  else if c = '\r' then ['\\', 'r']
  else if c = '\t' then ['\\', 't']
  else if c = '\x08' then ['\\', 'b']
  else if c = '\x0c' then ['\\', 'f']
  else if c.toNat < 32 then
    ['\\', 'u', '0', '0', hexDigit (c.toNat / 16), hexDigit (c.toNat % 16)]
  else [c]

/-- Modelled from the spec: the escaped text of a sequence of characters. -/
def escape : List Char → List Char
  | [] => []
  | c :: cs => escapeChar c ++ escape cs

/-- Modelled from the spec: a JSON string literal, between double quotes. -/
def quote (s : String) : List Char := '"' :: (escape s.data ++ ['"'])

mutual
/-- Modelled from the spec: the JSON text of a value, without whitespace;
array elements and object properties keep their order (the serializer is not
part of the repository). -/
def stringify : JSValue → List Char
  | .str s => quote s
  | .arr items => '[' :: (stringifyItems items ++ [']'])
  | .obj props => '\x7b' :: (stringifyProps props ++ ['\x7d'])
/-- Modelled from the spec: the elements of an array, separated by commas. -/
def stringifyItems : List JSValue → List Char
  | [] => []
  | v :: vs => stringify v ++ (if vs.isEmpty then [] else ',' :: stringifyItems vs)
/-- Modelled from the spec: the properties of an object, each written as
name, colon, value, separated by commas. -/
def stringifyProps : List (String × JSValue) → List Char
  | [] => []
  | (k, v) :: ps =>
    quote k ++ ':' :: (stringify v ++ (if ps.isEmpty then [] else ',' :: stringifyProps ps))
end

/-- Modelled from the spec: the JSON text of a value as a string. -/
def toJSON (v : JSValue) : String := String.mk (stringify v)

/-- Modelled from the spec: the character a one-letter escape stands for. -/
def unescape (e : Char) : Option Char :=
  if e = '"' then some '"'
  else if e = '\\' then some '\\'
  else if e = '/' then some '/'
  else if e = 'n' then some '\n'
  else if e = 'r' then some '\r'
  else if e = 't' then some '\t'
  else if e = 'b' then some '\x08'
  else if e = 'f' then some '\x0c'
  else none

/-- Modelled from the spec: where the scan of a string literal stands: in
plain text, after a backslash, inside the four digits of a `\u` escape (digits
still to read after the next one, value so far, pending high surrogate), or
after a high surrogate, where the escape of the low surrogate must follow. -/
inductive StrState where
  | plain
  | esc
  | hex (left : Nat) (val : Nat) (hi : Option Nat)
  | loBackslash (hi : Nat)
  | loU (hi : Nat)

/-- Modelled from the spec: what one character does to the scan of a string
literal: reject it, close the literal, change state, or add a character. -/
inductive StrStep where
  | fail
  | done
  | next (st : StrState)
  | emit (c : Char)

/-- Modelled from the spec: the code unit `n` that ends a `\u` escape is a
character of its own, the first half of a surrogate pair, or the second half
completing `hi`.  A surrogate without its other half is rejected: a string
here holds Unicode scalar values only. -/
def endHex (n : Nat) : Option Nat → StrStep
  | none =>
    if n < 0xD800 ∨ 0xDFFF < n then .emit (Char.ofNat n)
    else if n ≤ 0xDBFF then .next (.loBackslash n)
    else .fail
  | some hi =>
    if 0xDC00 ≤ n ∧ n ≤ 0xDFFF then
      .emit (Char.ofNat (0x10000 + (hi - 0xD800) * 0x400 + (n - 0xDC00)))
    else .fail

/-- Modelled from the spec: one step of the scan of a string literal. -/
def strStep : StrState → Char → StrStep
  | .plain, c =>
    if c = '"' then .done
    else if c = '\\' then .next .esc
    else if c.toNat < 32 then .fail
    else .emit c
  | .esc, c =>
    if c = 'u' then .next (.hex 3 0 none)
    else
      match unescape c with
      | none => .fail
      | some ch => .emit ch
  | .hex left val hi, c =>
    match hexVal c with
    | none => .fail
    | some d =>
      match left with
      | 0 => endHex (val * 16 + d) hi
      | k + 1 => .next (.hex k (val * 16 + d) hi)
  | .loBackslash hi, c => if c = '\\' then .next (.loU hi) else .fail
  | .loU hi, c => if c = 'u' then .next (.hex 3 0 (some hi)) else .fail

/-- Modelled from the spec: scan a string literal from after its opening
quote, giving the string and the text after the closing quote.  `acc` holds
the characters read so far, last first. -/
def parseChars : StrState → List Char → List Char → Option (String × List Char)
  | _, [], _ => none
  | st, c :: cs, acc =>
    match strStep st c with
    | .fail => none
    | .done => some (String.mk acc.reverse, cs)
    | .next st₁ => parseChars st₁ cs acc
    | .emit ch => parseChars .plain cs (ch :: acc)

/-- Modelled from the spec: JSON whitespace. -/
def isWs (c : Char) : Bool := c = ' ' || c = '\n' || c = '\r' || c = '\t'

/-- Modelled from the spec: drop leading whitespace. -/
def skipWs : List Char → List Char
  | [] => []
  | c :: cs => if isWs c then skipWs cs else c :: cs

mutual
/-- Modelled from the spec: read one JSON value (string, array or object) off
the front of a text, giving the value and the text after it.  `fuel` bounds
the number of nested calls (the parser is not part of the repository). -/
def parseValue : Nat → List Char → Option (JSValue × List Char)
  | 0, _ => none
  | fuel + 1, cs =>
    match skipWs cs with
    | [] => none
    | c :: rest =>
      if c = '"' then
        match parseChars .plain rest [] with
        | none => none
        | some (s, rest₁) => some (.str s, rest₁)
      else if c = '[' then
        match skipWs rest with
        | [] => none
        | d :: rest₁ =>
          if d = ']' then some (.arr [], rest₁)
          else
            match parseItems fuel (d :: rest₁) with
            | none => none
            | some (vs, rest₂) => some (.arr vs, rest₂)
      else if c = '\x7b' then
        match skipWs rest with
        | [] => none
        | d :: rest₁ =>
          if d = '\x7d' then some (.obj [], rest₁)
          else
            match parseProps fuel (d :: rest₁) with
            | none => none
            | some (ps, rest₂) => some (.obj ps, rest₂)
      else none
/-- Modelled from the spec: read the elements of a non-empty array up to and
including its closing bracket. -/
def parseItems : Nat → List Char → Option (List JSValue × List Char)
  | 0, _ => none
  | fuel + 1, cs =>
    match parseValue fuel cs with
    | none => none
    | some (v, rest) =>
      match skipWs rest with
      | [] => none
      | c :: rest₁ =>
        if c = ',' then
          match parseItems fuel rest₁ with
          | none => none
          | some (vs, rest₂) => some (v :: vs, rest₂)
        else if c = ']' then some ([v], rest₁)
        else none
/-- Modelled from the spec: read the properties of a non-empty object up to
and including its closing brace. -/
def parseProps : Nat → List Char → Option (List (String × JSValue) × List Char)
  | 0, _ => none
  | fuel + 1, cs =>
    match skipWs cs with
    | [] => none
    | q :: rest =>
      if q = '"' then
        match parseChars .plain rest [] with
        | none => none
        | some (k, rest₁) =>
          match skipWs rest₁ with
          | [] => none
          | c :: rest₂ =>
            if c = ':' then
              match parseValue fuel rest₂ with
              | none => none
              | some (v, rest₃) =>
                match skipWs rest₃ with
                | [] => none
                | d :: rest₄ =>
                  if d = ',' then
                    match parseProps fuel rest₄ with
                    | none => none
                    | some (ps, rest₅) => some ((k, v) :: ps, rest₅)
                  else if d = '\x7d' then some ([(k, v)], rest₄)
                  else none
            else none
      else none
end

/-- Modelled from the spec: parse a whole text as one JSON value; only
whitespace may follow the value.  The fuel is twice the length of the text
plus one: two nested calls of the parser use up at least one character. -/
def parse (text : List Char) : Option JSValue :=
  match parseValue (2 * text.length + 1) text with
  | none => none
  | some (v, rest) => if skipWs rest = [] then some v else none

/-- Modelled from the spec: parse a JSON string. -/
def fromJSON (text : String) : Option JSValue := parse text.data

/-- The characters the JSON text of a value can start with. -/
def IsOpener (c : Char) : Prop := c = '"' ∨ c = '[' ∨ c = '\x7b'

/-! ## The round trip through JSON text -/

theorem hexVal_hexDigit : ∀ n < 16, hexVal (hexDigit n) = some n := by decide

theorem parseChars_next {st st₁ : StrState} {c : Char} (h : strStep st c = .next st₁)
    (cs acc : List Char) : parseChars st (c :: cs) acc = parseChars st₁ cs acc := by
  rw [parseChars, h]

theorem parseChars_emit {st : StrState} {c ch : Char} (h : strStep st c = .emit ch)
    (cs acc : List Char) : parseChars st (c :: cs) acc = parseChars .plain cs (ch :: acc) := by
  rw [parseChars, h]

theorem parseChars_done {st : StrState} {c : Char} (h : strStep st c = .done)
    (cs acc : List Char) : parseChars st (c :: cs) acc = some (String.mk acc.reverse, cs) := by
  rw [parseChars, h]

theorem strStep_hex_succ {c : Char} {d : Nat} (h : hexVal c = some d) (k v : Nat)
    (hi : Option Nat) : strStep (.hex (k + 1) v hi) c = .next (.hex k (v * 16 + d) hi) := by
  simp only [strStep, h]

theorem strStep_hex_zero {c : Char} {d : Nat} (h : hexVal c = some d) (v : Nat)
    (hi : Option Nat) : strStep (.hex 0 v hi) c = endHex (v * 16 + d) hi := by
  simp only [strStep, h]

theorem endHex_low {n : Nat} (h : n < 0xD800) : endHex n none = .emit (Char.ofNat n) := by
  simp only [endHex, h, true_or, if_true]

theorem strStep_plain_of_ordinary {c : Char} (h₁ : c ≠ '"') (h₂ : c ≠ '\\')
    (h₃ : ¬ c.toNat < 32) : strStep .plain c = .emit c := by
  simp only [strStep, h₁, h₂, h₃, if_false]

theorem parseChars_unicode_escape (c : Char) (h : c.toNat < 32) (cs acc : List Char) :
    parseChars .plain
        ('\\' :: 'u' :: '0' :: '0' :: hexDigit (c.toNat / 16) :: hexDigit (c.toNat % 16) :: cs)
        acc =
      parseChars .plain cs (c :: acc) := by
  have ha := hexVal_hexDigit (c.toNat / 16) (by omega)
  have hb := hexVal_hexDigit (c.toNat % 16) (by omega)
  have h0 : hexVal '0' = some 0 := by decide
  rw [@parseChars_next .plain .esc '\\' rfl, @parseChars_next .esc (.hex 3 0 none) 'u' rfl,
    parseChars_next (strStep_hex_succ h0 2 0 none), parseChars_next (strStep_hex_succ h0 1 _ none),
    parseChars_next (strStep_hex_succ ha 0 _ none),
    parseChars_emit ((strStep_hex_zero hb _ none).trans (endHex_low (by omega)))]
  have hc : ((0 * 16 + 0) * 16 + c.toNat / 16) * 16 + c.toNat % 16 = c.toNat := by omega
  rw [hc, Char.ofNat_toNat]

theorem parseChars_escapeChar (c : Char) (cs acc : List Char) :
    parseChars .plain (escapeChar c ++ cs) acc = parseChars .plain cs (c :: acc) := by
  unfold escapeChar
  split_ifs with h1 h2 h3 h4 h5 h6 h7 h8
  · subst h1; rfl
  · subst h2; rfl
  · subst h3; rfl
  · subst h4; rfl
  · subst h5; rfl
  · subst h6; rfl
  · subst h7; rfl
  · exact parseChars_unicode_escape c h8 cs acc
  · exact parseChars_emit (strStep_plain_of_ordinary h1 h2 h8) cs acc

theorem parseChars_escape (s rest acc : List Char) :
    parseChars .plain (escape s ++ '"' :: rest) acc =
      some (String.mk (acc.reverse ++ s), rest) := by
  induction s generalizing acc with
  | nil => exact (@parseChars_done .plain '"' rfl rest acc).trans (by simp)
  | cons c s ih =>
    rw [escape, List.append_assoc, parseChars_escapeChar, ih]
    simp

theorem parseChars_quote_body (s : String) (rest : List Char) :
    parseChars .plain (escape s.data ++ '"' :: rest) [] = some (s, rest) := by
  rw [parseChars_escape]; rfl


theorem stringify_head (v : JSValue) : ∃ c tl, stringify v = c :: tl ∧ IsOpener c := by
  cases v with
  | str s => exact ⟨_, _, by rw [stringify, quote], Or.inl rfl⟩
  | arr items => exact ⟨_, _, by rw [stringify], Or.inr (Or.inl rfl)⟩
  | obj props => exact ⟨_, _, by rw [stringify], Or.inr (Or.inr rfl)⟩

theorem parseValue_str (f : Nat) (s : String) (rest : List Char) :
    parseValue (f + 1) (quote s ++ rest) = some (.str s, rest) := by
  rw [parseValue]
  simp [quote, skipWs, isWs, parseChars_quote_body]

theorem parseValue_arr_nil (f : Nat) (rest : List Char) :
    parseValue (f + 1) ('[' :: ']' :: rest) = some (.arr [], rest) := by
  rw [parseValue]
  simp [skipWs, isWs]

theorem parseValue_obj_nil (f : Nat) (rest : List Char) :
    parseValue (f + 1) ('\x7b' :: '\x7d' :: rest) = some (.obj [], rest) := by
  rw [parseValue]
  simp [skipWs, isWs]

theorem parseValue_arr_cons {f : Nat} {d : Char} {cs rest : List Char} {vs : List JSValue}
    (hd : IsOpener d) (h : parseItems f (d :: cs) = some (vs, rest)) :
    parseValue (f + 1) ('[' :: d :: cs) = some (.arr vs, rest) := by
  rw [parseValue]
  rcases hd with rfl | rfl | rfl <;> simp [skipWs, isWs, h]

theorem parseValue_obj_cons {f : Nat} {cs rest : List Char} {ps : List (String × JSValue)}
    (h : parseProps f ('"' :: cs) = some (ps, rest)) :
    parseValue (f + 1) ('\x7b' :: '"' :: cs) = some (.obj ps, rest) := by
  rw [parseValue]
  simp [skipWs, isWs, h]

theorem parseItems_last {f : Nat} {cs rest : List Char} {v : JSValue}
    (h : parseValue f cs = some (v, ']' :: rest)) :
    parseItems (f + 1) cs = some ([v], rest) := by
  rw [parseItems]
  simp [skipWs, isWs, h]

theorem parseItems_more {f : Nat} {cs rest₁ rest₂ : List Char} {v : JSValue}
    {vs : List JSValue} (h : parseValue f cs = some (v, ',' :: rest₁))
    (hs : parseItems f rest₁ = some (vs, rest₂)) :
    parseItems (f + 1) cs = some (v :: vs, rest₂) := by
  rw [parseItems]
  simp [skipWs, isWs, h, hs]

theorem parseProps_last {f : Nat} {k : String} {rest rest₁ : List Char} {v : JSValue}
    (h : parseValue f rest = some (v, '\x7d' :: rest₁)) :
    parseProps (f + 1) (quote k ++ ':' :: rest) = some ([(k, v)], rest₁) := by
  rw [parseProps]
  simp [quote, skipWs, isWs, parseChars_quote_body, h]

theorem parseProps_more {f : Nat} {k : String} {rest rest₁ rest₂ : List Char} {v : JSValue}
    {ps : List (String × JSValue)} (h : parseValue f rest = some (v, ',' :: rest₁))
    (hs : parseProps f rest₁ = some (ps, rest₂)) :
    parseProps (f + 1) (quote k ++ ':' :: rest) = some ((k, v) :: ps, rest₂) := by
  rw [parseProps]
  simp [quote, skipWs, isWs, parseChars_quote_body, h, hs]


theorem stringifyItems_cons_cons (v w : JSValue) (ws : List JSValue) :
    stringifyItems (v :: w :: ws) = stringify v ++ ',' :: stringifyItems (w :: ws) := by
  rw [stringifyItems]; rfl

theorem stringifyItems_single (v : JSValue) : stringifyItems [v] = stringify v := by
  rw [stringifyItems]; simp

theorem stringifyProps_cons_cons (k : String) (v : JSValue) (p : String × JSValue)
    (ps : List (String × JSValue)) :
    stringifyProps ((k, v) :: p :: ps) =
      quote k ++ ':' :: (stringify v ++ ',' :: stringifyProps (p :: ps)) := by
  rw [stringifyProps]; rfl

theorem stringifyProps_single (k : String) (v : JSValue) :
    stringifyProps [(k, v)] = quote k ++ ':' :: stringify v := by
  rw [stringifyProps]; simp

theorem stringifyItems_head (v : JSValue) (vs : List JSValue) :
    ∃ c tl, stringifyItems (v :: vs) = c :: tl ∧ IsOpener c := by
  obtain ⟨c, tl, h, hc⟩ := stringify_head v
  rw [stringifyItems, h]
  exact ⟨c, _, rfl, hc⟩

theorem stringifyProps_head (p : String × JSValue) (ps : List (String × JSValue)) :
    ∃ tl, stringifyProps (p :: ps) = '"' :: tl := by
  obtain ⟨k, v⟩ := p
  rw [stringifyProps, quote]
  exact ⟨_, rfl⟩

mutual
theorem parseValue_stringify : ∀ (v : JSValue) (f : Nat) (rest : List Char),
    2 * (stringify v).length ≤ f → parseValue f (stringify v ++ rest) = some (v, rest)
  | .str s, f, rest, h => by
    rw [stringify] at h ⊢
    obtain ⟨f, rfl⟩ : ∃ g, f = g + 1 := ⟨f - 1, by simp [quote] at h; omega⟩
    exact parseValue_str f s rest
  | .arr [], f, rest, h => by
    rw [stringify] at h ⊢
    obtain ⟨f, rfl⟩ : ∃ g, f = g + 1 := ⟨f - 1, by simp at h; omega⟩
    simpa [stringifyItems] using parseValue_arr_nil f rest
  | .arr (v :: vs), f, rest, h => by
    rw [stringify] at h ⊢
    obtain ⟨f, rfl⟩ : ∃ g, f = g + 1 := ⟨f - 1, by simp at h; omega⟩
    have ih := parseItems_stringify (v :: vs) (by simp) f rest (by simp at h; omega)
    obtain ⟨c, tl, hc, hop⟩ := stringifyItems_head v vs
    rw [hc] at ih
    simp only [List.cons_append, List.append_assoc, List.singleton_append, hc]
    exact parseValue_arr_cons hop ih
  | .obj [], f, rest, h => by
    rw [stringify] at h ⊢
    obtain ⟨f, rfl⟩ : ∃ g, f = g + 1 := ⟨f - 1, by simp at h; omega⟩
    simpa [stringifyProps] using parseValue_obj_nil f rest
  | .obj (p :: ps), f, rest, h => by
    rw [stringify] at h ⊢
    obtain ⟨f, rfl⟩ : ∃ g, f = g + 1 := ⟨f - 1, by simp at h; omega⟩
    have ih := parseProps_stringify (p :: ps) (by simp) f rest (by simp at h; omega)
    obtain ⟨tl, hc⟩ := stringifyProps_head p ps
    rw [hc] at ih
    simp only [List.cons_append, List.append_assoc, List.singleton_append, hc]
    exact parseValue_obj_cons ih
theorem parseItems_stringify : ∀ (vs : List JSValue), vs ≠ [] → ∀ (f : Nat) (rest : List Char),
    2 * (stringifyItems vs).length + 1 ≤ f →
      parseItems f (stringifyItems vs ++ ']' :: rest) = some (vs, rest)
  | [], hne, _, _, _ => absurd rfl hne
  | [v], _, f, rest, h => by
    rw [stringifyItems_single] at h ⊢
    obtain ⟨f, rfl⟩ : ∃ g, f = g + 1 := ⟨f - 1, by omega⟩
    exact parseItems_last (parseValue_stringify v f (']' :: rest) (by omega))
  | v :: w :: ws, _, f, rest, h => by
    rw [stringifyItems_cons_cons] at h ⊢
    obtain ⟨f, rfl⟩ : ∃ g, f = g + 1 := ⟨f - 1, by omega⟩
    simp only [List.length_append, List.length_cons] at h
    rw [List.append_assoc, List.cons_append]
    exact parseItems_more (parseValue_stringify v f _ (by omega))
      (parseItems_stringify (w :: ws) (by simp) f rest (by omega))
theorem parseProps_stringify : ∀ (ps : List (String × JSValue)), ps ≠ [] →
    ∀ (f : Nat) (rest : List Char), 2 * (stringifyProps ps).length + 1 ≤ f →
      parseProps f (stringifyProps ps ++ '\x7d' :: rest) = some (ps, rest)
  | [], hne, _, _, _ => absurd rfl hne
  | [(k, v)], _, f, rest, h => by
    rw [stringifyProps_single] at h ⊢
    obtain ⟨f, rfl⟩ : ∃ g, f = g + 1 := ⟨f - 1, by omega⟩
    simp only [List.length_append, List.length_cons] at h
    rw [List.append_assoc, List.cons_append]
    exact parseProps_last (parseValue_stringify v f ('\x7d' :: rest) (by omega))
  | (k, v) :: p :: ps, _, f, rest, h => by
    rw [stringifyProps_cons_cons] at h ⊢
    obtain ⟨f, rfl⟩ : ∃ g, f = g + 1 := ⟨f - 1, by omega⟩
    simp only [List.length_append, List.length_cons] at h
    rw [List.append_assoc, List.cons_append, List.append_assoc, List.cons_append]
    exact parseProps_more (parseValue_stringify v f _ (by omega))
      (parseProps_stringify (p :: ps) (by simp) f rest (by omega))
end

theorem parse_stringify (v : JSValue) : fromJSON (toJSON v) = some v := by
  have h := parseValue_stringify v (2 * (stringify v).length + 1) [] (by omega)
  rw [List.append_nil] at h
  simp [fromJSON, toJSON, parse, h, skipWs]

set_option maxRecDepth 8000 in
theorem parse_sampleRecordText : fromJSON sampleRecordText = some sampleRecord := rfl

/-! ## The records of the index -/

theorem isRecord_sound (v : JSValue) (h : v.isRecord = true) :
    ∃ l p t x c : String, v = .obj [("location", .str l), ("page", .str p),
      ("title", .str t), ("text", .str x), ("category", .str c)] := by
  unfold JSValue.isRecord at h
  split at h
  · rename_i k₁ a k₂ b k₃ c k₄ d k₅ e
    simp only [recordFields, beq_iff_eq, List.cons.injEq, and_true] at h
    obtain ⟨rfl, rfl, rfl, rfl, rfl⟩ := h
    exact ⟨a, b, c, d, e, rfl⟩
  · exact absurd h (by simp)

theorem docs_all_isRecord : docs.all JSValue.isRecord = true := by decide

theorem docs_length : docs.length = 80 := by decide

theorem sampleRecord_mem : sampleRecord ∈ docs := List.getElem?_mem (n := 0) rfl

theorem licenseRecord_mem : licenseRecord ∈ docs := List.getElem?_mem (n := 65) rfl

set_option maxRecDepth 8000 in
theorem page_at_block : ∀ i < 80, fieldAt i "page" = some (blockPage i) := by decide

theorem fieldAt_page_of_lt {i : Nat} (h : i < docs.length) :
    fieldAt i "page" = some (blockPage i) :=
  page_at_block i (docs_length ▸ h)

theorem blockPage_between {i j k : Nat} (hij : i < j) (hjk : j < k)
    (h : blockPage i = blockPage k) : blockPage j = blockPage i := by
  unfold blockPage at *
  split_ifs at * <;> first | rfl | omega | exact absurd h (by decide)

theorem page_prefix_mem :
    ∀ r ∈ docs, (r.getStr "page", (r.getStr "location").map pathPrefix) ∈
      [(some "Analytic Fields", some "analytic/"), (some "Home", some ""),
       (some "Modules", some "modules/")] := by
  decide

/-! ## The claims -/

/-- C1: `documenterSearchIndex` is an object whose only property is `docs`, an
array, and every element of that array is an object with exactly the
properties location, page, title, text and category, each holding a string. -/
theorem index_shape :
    documenterSearchIndex = .obj [("docs", .arr docs)] ∧
    ∀ r ∈ docs, ∃ l p t x c : String,
      r = .obj [("location", .str l), ("page", .str p), ("title", .str t),
        ("text", .str x), ("category", .str c)] :=
  ⟨rfl, fun r hr => isRecord_sound r (List.all_eq_true.mp docs_all_isRecord r hr)⟩

theorem index_shape_witness :
    sampleRecord ∈ docs ∧ ∃ l p t x c : String,
      sampleRecord = .obj [("location", .str l), ("page", .str p), ("title", .str t),
        ("text", .str x), ("category", .str c)] :=
  ⟨sampleRecord_mem, index_shape.2 sampleRecord sampleRecord_mem⟩

/-- C2: the category of every record of `docs` is one of the eight tags page,
section, module, method, function, constant, type, macro. -/
theorem category_mem_tags :
    ∀ r ∈ docs, ∃ c ∈ categoryTags, r.getStr "category" = some c := by decide

theorem category_mem_tags_witness :
    sampleRecord ∈ docs ∧ ∃ c ∈ categoryTags, sampleRecord.getStr "category" = some c :=
  ⟨sampleRecord_mem, category_mem_tags sampleRecord sampleRecord_mem⟩

/-- C3: serializing a value to JSON text and parsing the text back gives the
value again, for every value built from strings, arrays and objects, whatever
characters its strings hold, and so for `documenterSearchIndex`; equality of
values is structural, the order of array elements and properties included.
The newline, the quote and the backslash are written as escapes and non-ASCII
characters as they are; the text of the sample record, as the file writes it,
parses to the sample record. -/
theorem json_round_trip :
    (∀ v : JSValue, fromJSON (toJSON v) = some v) ∧
    fromJSON (toJSON documenterSearchIndex) = some documenterSearchIndex ∧
    toJSON (.arr [.str "\n\"\\Γ²₀", .obj [("text", .str "")]]) =
      "[\"\\n\\\"\\\\Γ²₀\",\x7b\"text\":\"\"\x7d]" ∧
    fromJSON sampleRecordText = some sampleRecord :=
  ⟨parse_stringify, parse_stringify documenterSearchIndex, by decide, parse_sampleRecordText⟩

/-- C4: the first record of `docs` is the sample record, with its location,
page and title, and reading its category and text gives "section" and the
empty string. -/
theorem sample_record_first :
    docs[0]? = some sampleRecord ∧ sampleRecord ∈ docs ∧
      fieldAt 0 "location" = some "analytic/#Analytic-Fields" ∧
      fieldAt 0 "page" = some "Analytic Fields" ∧
      fieldAt 0 "title" = some "Analytic Fields" ∧
      fieldAt 0 "category" = some "section" ∧
      fieldAt 0 "text" = some "" :=
  ⟨rfl, sampleRecord_mem, by decide, by decide, by decide, by decide, by decide⟩

/-- C5: `docs` is not empty; it has 80 records. -/
theorem docs_nonempty : docs ≠ [] ∧ docs.length = 80 := by
  have h := docs_length
  refine ⟨?_, h⟩
  intro h0
  rw [h0] at h
  exact absurd h (by decide)

/-- C6 (as stated, refuted): "constant" is one of the eight tags, yet no
record of `docs` has it as category. -/
theorem constant_tag_unobserved :
    "constant" ∈ categoryTags ∧ ¬ ∃ r ∈ docs, r.getStr "category" = some "constant" := by
  decide

/-- C6 (amended): a tag of the eight is the category of some record of `docs`
exactly when it is one of page, section, module, method, function; the tags
constant, type and macro occur on no record. -/
theorem observed_tags :
    ∀ tag ∈ categoryTags,
      (∃ r ∈ docs, r.getStr "category" = some tag) ↔
        tag ∈ ["page", "section", "module", "method", "function"] := by
  decide

theorem observed_tags_witness :
    "type" ∈ categoryTags ∧
      ((∃ r ∈ docs, r.getStr "category" = some "type") ↔
        "type" ∈ ["page", "section", "module", "method", "function"]) :=
  ⟨by decide, observed_tags "type" (by decide)⟩

/-- C7: the records at positions 2 and 4 of `docs` agree on location, page,
title and category, so the four-tuple is not a key. -/
theorem four_tuple_not_key :
    ∃ i j : Nat, i ≠ j ∧ i < docs.length ∧ j < docs.length ∧
      ∀ k ∈ ["location", "page", "title", "category"],
        ∃ s, fieldAt i k = some s ∧ fieldAt j k = some s :=
  ⟨2, 4, by decide⟩

/-- C8 (as stated, refuted): no record of `docs` has the empty string as
title, so there are no two positions with the same page and an empty title. -/
theorem no_empty_title :
    (¬ ∃ r ∈ docs, r.getStr "title" = some "") ∧
    ¬ ∃ i j : Nat, i ≠ j ∧ fieldAt i "page" = fieldAt j "page" ∧
        fieldAt i "title" = some "" ∧ fieldAt j "title" = some "" := by
  have h : ¬ ∃ r ∈ docs, r.getStr "title" = some "" := by decide
  refine ⟨h, ?_⟩
  rintro ⟨i, j, -, -, hti, -⟩
  unfold fieldAt at hti
  cases hi : docs[i]? with
  | none => rw [hi] at hti; simp at hti
  | some ri =>
    rw [hi] at hti
    exact h ⟨ri, List.getElem?_mem hi, by simpa using hti⟩

/-- C8 (amended): no record has an empty title; what is empty on the sections
of one page is the text (positions 0 and 1 are two sections of the same page
with empty text), and what recurs as title within a page is the page name
(positions 2 and 4 carry the same page and the same non-empty title). -/
theorem titles_recur_nonempty :
    (∀ i < docs.length, ∃ t, fieldAt i "title" = some t ∧ t ≠ "") ∧
    (∃ i j : Nat, i ≠ j ∧ fieldAt i "page" = fieldAt j "page" ∧
      fieldAt i "category" = some "section" ∧ fieldAt j "category" = some "section" ∧
      fieldAt i "text" = some "" ∧ fieldAt j "text" = some "") ∧
    (∃ i j : Nat, i ≠ j ∧ ∃ p, p ≠ "" ∧ fieldAt i "page" = some p ∧ fieldAt j "page" = some p ∧
      fieldAt i "title" = some p ∧ fieldAt j "title" = some p) := by
  refine ⟨?_, ⟨0, 1, by decide⟩, ⟨2, 4, by decide, "Analytic Fields", by decide⟩⟩
  rw [docs_length]
  decide

theorem titles_recur_nonempty_witness :
    7 < docs.length ∧ ∃ t, fieldAt 7 "title" = some t ∧ t ≠ "" :=
  ⟨by decide, titles_recur_nonempty.1 7 (by decide)⟩

/-- C9: the records of one page are contiguous in `docs`: between two
positions with the same page every position has that page.  The blocks are
61 records of Analytic Fields, 6 of Home and 13 of Modules, in this order. -/
theorem pages_contiguous (i j k : Nat) (hij : i < j) (hjk : j < k) (hk : k < docs.length)
    (h : fieldAt i "page" = fieldAt k "page") :
    fieldAt j "page" = fieldAt i "page" ∧
    docs.map (fun r => r.getStr "page") =
      List.replicate 61 (some "Analytic Fields") ++ List.replicate 6 (some "Home") ++
        List.replicate 13 (some "Modules") := by
  have hi := fieldAt_page_of_lt (show i < docs.length by omega)
  have hj := fieldAt_page_of_lt (show j < docs.length by omega)
  have hk₁ := fieldAt_page_of_lt hk
  rw [hi, hk₁] at h
  rw [hi, hj, blockPage_between hij hjk (Option.some.inj h)]
  exact ⟨rfl, by decide⟩

theorem pages_contiguous_witness :
    fieldAt 61 "page" = fieldAt 66 "page" ∧ fieldAt 63 "page" = fieldAt 61 "page" :=
  ⟨by decide,
    (pages_contiguous 61 63 66 (by decide) (by decide) (by decide) (by decide)).1⟩

/-- C10: two records of `docs` have the same page exactly when their
locations have the same path prefix, the part before the first `#`. -/
theorem same_page_iff_same_path (r₁ r₂ : JSValue) (h₁ : r₁ ∈ docs) (h₂ : r₂ ∈ docs) :
    r₁.getStr "page" = r₂.getStr "page" ↔
      (r₁.getStr "location").map pathPrefix = (r₂.getStr "location").map pathPrefix := by
  have a := page_prefix_mem r₁ h₁
  have b := page_prefix_mem r₂ h₂
  generalize r₁.getStr "page" = p₁ at a
  generalize (r₁.getStr "location").map pathPrefix = l₁ at a
  generalize r₂.getStr "page" = p₂ at b
  generalize (r₂.getStr "location").map pathPrefix = l₂ at b
  simp only [List.mem_cons, Prod.mk.injEq, List.mem_singleton, List.not_mem_nil, or_false] at a b
  rcases a with ⟨rfl, rfl⟩ | ⟨rfl, rfl⟩ | ⟨rfl, rfl⟩ <;>
    rcases b with ⟨rfl, rfl⟩ | ⟨rfl, rfl⟩ | ⟨rfl, rfl⟩ <;> decide

theorem same_page_iff_same_path_witness :
    sampleRecord ∈ docs ∧ licenseRecord ∈ docs ∧
      (sampleRecord.getStr "page" = licenseRecord.getStr "page" ↔
        (sampleRecord.getStr "location").map pathPrefix =
          (licenseRecord.getStr "location").map pathPrefix) :=
  ⟨sampleRecord_mem, licenseRecord_mem,
    same_page_iff_same_path sampleRecord licenseRecord sampleRecord_mem licenseRecord_mem⟩

/-- C11: on every record of `docs` the text and the category are present as
strings, and the text is the empty string exactly when the category is
"section". -/
theorem text_empty_iff_section :
    ∀ r ∈ docs, (r.getStr "text").isSome = true ∧ (r.getStr "category").isSome = true ∧
      (r.getStr "text" = some "" ↔ r.getStr "category" = some "section") := by
  decide

theorem text_empty_iff_section_witness :
    licenseRecord ∈ docs ∧ (licenseRecord.getStr "text").isSome = true ∧
      (licenseRecord.getStr "category").isSome = true ∧
      (licenseRecord.getStr "text" = some "" ↔
        licenseRecord.getStr "category" = some "section") :=
  ⟨licenseRecord_mem, text_empty_iff_section licenseRecord licenseRecord_mem⟩

end SearchIndex
